import Mathlib

/-!
Shallow embedding of the climate-index notebooks: the nearest-grid-cell
resolver, the temporal slice extractor, the threshold-count aggregator
(summer-days index), the historical/scenario merge, and the model-list
intersection of the multimodel-comparison notebook.

Coordinates and temperatures are embedded as rationals; IEEE special
values (NaN, infinities) are represented explicitly by the `FVal` type.
-/

namespace Climate

/-- Scalar sample value: a finite rational, NaN, or a signed infinity,
mirroring the IEEE doubles the arrays hold. -/
inductive FVal where
  | fin : ℚ → FVal
  | nan : FVal
  | inf : FVal
  | ninf : FVal
deriving DecidableEq

/-- IEEE strict greater-than on sample values: every comparison with NaN
is false; infinities compare as expected. -/
def fgt : FVal → FVal → Bool
  | _, FVal.nan => false
  | FVal.nan, _ => false
  | FVal.fin a, FVal.fin b => decide (b < a)
  | FVal.inf, FVal.inf => false
  | FVal.inf, _ => true
  | _, FVal.inf => false
  | FVal.ninf, _ => false
  | _, FVal.ninf => true

/-- Test for the NaN value. -/
def FVal.isNaN : FVal → Bool
  | FVal.nan => true
  | _ => false

/-- Test for a finite value. -/
def FVal.isFinite : FVal → Bool
  | FVal.fin _ => true
  | _ => false

/-- Summer-days index calculation, from
`no_summer_days_model = tasmax_year_place_xr[tasmax_year_place_xr > 25].size`:
the number of entries strictly greater than the threshold under IEEE
comparison (the notebook instantiates the threshold at 25). -/
def no_summer_days_model (s : List FVal) (threshold : FVal) : ℕ :=
  (s.filter (fun v => fgt v threshold)).length

/-- Kelvin-to-Celsius conversion of one sample, from
`tasmax_year_place_xr = tasmax_year_xr[:, yloc, xloc] - 273.15`; NaN and
infinities propagate as IEEE subtraction of a finite constant does. -/
def kelvinToC : FVal → FVal
  | FVal.fin q => FVal.fin (q - 273.15)
  | FVal.nan => FVal.nan
  | FVal.inf => FVal.inf
  | FVal.ninf => FVal.ninf

/-- The notebook's summer-day pipeline from the Kelvin-valued cell series:
convert every sample to Celsius, then count samples above 25. -/
def summerDaysFromKelvin (s : List FVal) : ℕ :=
  no_summer_days_model (s.map kelvinToC) (FVal.fin 25)

/-- Follows the spec's words, for comparison with the source aggregator:
an aggregator that fails with an invalid-threshold error when the
threshold is non-finite and otherwise returns the count. -/
def specAggregator (s : List FVal) (threshold : FVal) : Except String ℕ :=
  if threshold.isFinite then Except.ok (no_summer_days_model s threshold)
  else Except.error "invalid threshold"

/-! ### Nearest-grid-cell resolver

From the notebook cell
`abslat = np.abs(tasmax_year_xr["lat"] - location.latitude)`,
`abslon = np.abs(tasmax_year_xr["lon"] - location.longitude)`,
`c = np.maximum(abslon, abslat)`,
`([xloc], [yloc]) = np.where(c == np.min(c))`.
The broadcast of the 1-D `abslon` (dim `lon`) against the 1-D `abslat`
(dim `lat`) yields a 2-D array over (lon index, lat index) in row-major
order; `np.where` lists all positions attaining the minimum in that
order, and the destructuring into `([xloc], [yloc])` succeeds exactly
when that list is a singleton. -/

/-- Chebyshev-style distance of grid entry (i, j) from the query point:
`max(|lon_i - qlon|, |lat_j - qlat|)` (i indexes `lons`, j indexes
`lats`). -/
def chebDist (lats lons : List ℚ) (qlat qlon : ℚ) (i j : ℕ) : ℚ :=
  max |lons.getD i 0 - qlon| |lats.getD j 0 - qlat|

/-- The broadcast array `c` flattened in row-major order, each entry
tagged with its index pair. -/
def cVals (lats lons : List ℚ) (qlat qlon : ℚ) : List ((ℕ × ℕ) × ℚ) :=
  (List.range lons.length).flatMap (fun i =>
    (List.range lats.length).map (fun j => ((i, j), chebDist lats lons qlat qlon i j)))

/-- The index pairs produced by `np.where(c == np.min(c))`, in row-major
order; empty when the grid is empty (where `np.min` raises). -/
def whereMin (lats lons : List ℚ) (qlat qlon : ℚ) : List (ℕ × ℕ) :=
  match ((cVals lats lons qlat qlon).map Prod.snd).min? with
  | none => []
  | some m => ((cVals lats lons qlat qlon).filter (fun p => decide (p.2 = m))).map Prod.fst

/-- The resolver: the destructuring `([xloc], [yloc]) = np.where(...)`
succeeds exactly when one index pair attains the minimum; an empty grid
(`np.min` of nothing) or a tie (too many values to unpack) raises, which
the embedding renders as `none`. -/
def resolver (lats lons : List ℚ) (qlat qlon : ℚ) : Option (ℕ × ℕ) :=
  match whereMin lats lons qlat qlon with
  | [p] => some p
  | _ => none

example : resolver [52, 53.5, 55] [9.5, 10, 10.5] 53.55 10 = some (1, 1) := by
  with_unfolding_all decide

example : resolver [0] [0, 2] 0 1 = none := by with_unfolding_all decide

example : resolver [] [1] 0 0 = none := by with_unfolding_all decide

/-! ### Helper lemmas about the resolver -/

instance : Std.Antisymm (fun a b : ℚ => a ≤ b) :=
  ⟨fun h h2 => le_antisymm h h2⟩

theorem rat_min?_spec {l : List ℚ} {m : ℚ} (h : l.min? = some m) :
    m ∈ l ∧ ∀ b ∈ l, m ≤ b := by
  exact (List.min?_eq_some_iff (fun a : ℚ => le_refl a)
    (fun a b => min_choice a b) (fun a b c => le_min_iff)).mp h

theorem mem_cVals {lats lons : List ℚ} {qlat qlon : ℚ} {i j : ℕ}
    (hi : i < lons.length) (hj : j < lats.length) :
    ((i, j), chebDist lats lons qlat qlon i j) ∈ cVals lats lons qlat qlon := by
  simp only [cVals, List.mem_flatMap, List.mem_map, List.mem_range]
  exact ⟨i, hi, j, hj, rfl⟩

theorem snd_of_mem_cVals {lats lons : List ℚ} {qlat qlon : ℚ}
    {p : (ℕ × ℕ) × ℚ} (hp : p ∈ cVals lats lons qlat qlon) :
    p.2 = chebDist lats lons qlat qlon p.1.1 p.1.2 := by
  simp only [cVals, List.mem_flatMap, List.mem_map, List.mem_range] at hp
  obtain ⟨i, _, j, _, rfl⟩ := hp
  rfl

theorem cVals_eq_nil {lats lons : List ℚ} {qlat qlon : ℚ}
    (h : lats = [] ∨ lons = []) : cVals lats lons qlat qlon = [] := by
  rcases h with h | h <;> subst h <;> simp [cVals]

theorem resolver_eq_some {lats lons : List ℚ} {qlat qlon : ℚ} {p : ℕ × ℕ}
    (h : resolver lats lons qlat qlon = some p) :
    whereMin lats lons qlat qlon = [p] := by
  unfold resolver at h
  rcases hw : whereMin lats lons qlat qlon with _ | ⟨a, _ | ⟨b, t⟩⟩ <;>
    rw [hw] at h <;> simp_all

/-- C1: whenever the resolver returns an index pair, that pair minimizes the
Chebyshev distance `max(|grid_lon - qlon|, |grid_lat - qlat|)` over all valid
index pairs, and on the grid lat = [52.0, 53.5, 55.0], lon = [9.5, 10.0, 10.5]
with query (53.55, 10.0) it returns the index pair of (lon 10.0, lat 53.5). -/
theorem resolver_returns_chebyshev_minimizer :
    (∀ (lats lons : List ℚ) (qlat qlon : ℚ) (i j i' j' : ℕ),
      resolver lats lons qlat qlon = some (i, j) →
      i' < lons.length → j' < lats.length →
      chebDist lats lons qlat qlon i j ≤ chebDist lats lons qlat qlon i' j') ∧
    resolver [52, 53.5, 55] [9.5, 10, 10.5] 53.55 10 = some (1, 1) := by
  constructor
  · intro lats lons qlat qlon i j i' j' hres hi' hj'
    have hw := resolver_eq_some hres
    unfold whereMin at hw
    rcases hm : ((cVals lats lons qlat qlon).map Prod.snd).min? with _ | m <;>
      rw [hm] at hw
    · simp at hw
    · have hw2 : ((cVals lats lons qlat qlon).filter
          (fun p => decide (p.2 = m))).map Prod.fst = [(i, j)] := hw
      have hmem : (i, j) ∈ ((cVals lats lons qlat qlon).filter
          (fun p => decide (p.2 = m))).map Prod.fst := by
        rw [hw2]; exact List.mem_singleton.mpr rfl
      obtain ⟨q, hq, hq1⟩ := List.mem_map.mp hmem
      have hqc := List.mem_filter.mp hq
      have hq2 : q.2 = m := by
        have := hqc.2
        simpa using this
      have hsnd := snd_of_mem_cVals hqc.1
      have hij : chebDist lats lons qlat qlon i j = m := by
        rw [← hq2, hsnd, hq1]
      have hspec := (rat_min?_spec hm).2
      have hmm : chebDist lats lons qlat qlon i' j' ∈
          (cVals lats lons qlat qlon).map Prod.snd :=
        List.mem_map.mpr ⟨_, mem_cVals hi' hj', rfl⟩
      rw [hij]
      exact hspec _ hmm
  · with_unfolding_all decide

/-- Witness for C1 at the concrete grid of the spec scenario. -/
theorem resolver_returns_chebyshev_minimizer_witness :
    chebDist [52, 53.5, 55] [9.5, 10, 10.5] 53.55 10 1 1 ≤
      chebDist [52, 53.5, 55] [9.5, 10, 10.5] 53.55 10 0 0 :=
  resolver_returns_chebyshev_minimizer.1 [52, 53.5, 55] [9.5, 10, 10.5] 53.55 10
    1 1 0 0 resolver_returns_chebyshev_minimizer.2 (by decide) (by decide)

/-- C5 counterexample: on the grid lat = [0], lon = [0, 2] with query (0, 1)
two index pairs attain the minimum, and the resolver does not return the
first of them (it fails instead of returning (0, 0)). -/
theorem resolver_tie_counterexample :
    (whereMin [0] [0, 2] 0 1).length = 2 ∧
      resolver [0] [0, 2] 0 1 ≠ some (0, 0) ∧ resolver [0] [0, 2] 0 1 = none := by
  with_unfolding_all decide

/-- C5 amended: whenever two or more index pairs attain the minimum Chebyshev
distance, the resolver fails (the destructuring of the `np.where` result
raises), returning no index pair at all. -/
theorem resolver_fails_on_ties :
    ∀ (lats lons : List ℚ) (qlat qlon : ℚ),
      2 ≤ (whereMin lats lons qlat qlon).length →
      resolver lats lons qlat qlon = none := by
  intro lats lons qlat qlon h
  unfold resolver
  rcases hw : whereMin lats lons qlat qlon with _ | ⟨a, _ | ⟨b, t⟩⟩ <;> simp_all

/-- Witness for C5 amended at a concrete tied grid. -/
theorem resolver_fails_on_ties_witness :
    resolver [0] [0, 2] 0 1 = none :=
  resolver_fails_on_ties [0] [0, 2] 0 1 (by with_unfolding_all decide)

/-- C6 counterexample: a non-empty grid (lat = [1, 3], lon = [5]) and a query
(2, 5) on which the resolver fails instead of succeeding. -/
theorem resolver_nonempty_failure_counterexample :
    ([(1 : ℚ), 3] ≠ []) ∧ ([(5 : ℚ)] ≠ []) ∧ resolver [1, 3] [5] 2 5 = none := by
  with_unfolding_all decide

/-- C6 amended: the resolver fails on an empty grid; on any grid it succeeds
exactly when a unique index pair attains the minimum Chebyshev distance, so a
non-empty grid with tied minima also makes it fail. -/
theorem resolver_success_characterization :
    ∀ (lats lons : List ℚ) (qlat qlon : ℚ),
      ((lats = [] ∨ lons = []) → resolver lats lons qlat qlon = none) ∧
      ((∃ p, resolver lats lons qlat qlon = some p) ↔
        (whereMin lats lons qlat qlon).length = 1) := by
  intro lats lons qlat qlon
  constructor
  · intro h
    have hc := @cVals_eq_nil lats lons qlat qlon h
    unfold resolver whereMin
    rw [hc]
    rfl
  · rcases hw : whereMin lats lons qlat qlon with _ | ⟨a, _ | ⟨b, t⟩⟩ <;>
      unfold resolver <;> rw [hw] <;> simp

/-- Witness for C6 amended: the empty-grid half at a concrete empty grid. -/
theorem resolver_success_characterization_witness :
    resolver [] [1] 0 0 = none :=
  (resolver_success_characterization [] [1] 0 0).1 (Or.inl rfl)

/-! ### Threshold-count aggregator -/

theorem fgt_nan_right (v : FVal) : fgt v FVal.nan = false := by
  cases v <;> rfl

theorem fgt_inf_right (v : FVal) : fgt v FVal.inf = false := by
  cases v <;> rfl

theorem fgt_eq_nonnan_fgt (T : FVal) (v : FVal) :
    fgt v T = (!v.isNaN && fgt v T) := by
  cases v <;> cases T <;> rfl

theorem length_filter_replicate (p : FVal → Bool) (n : ℕ) (a : FVal) :
    (List.filter p (List.replicate n a)).length = if p a then n else 0 := by
  induction n with
  | zero => simp
  | succ n ih =>
    rw [List.replicate_succ, List.filter_cons]
    by_cases h : p a <;> simp [h] at ih ⊢

/-- C3: the aggregator counts exactly the non-NaN values strictly greater
than the threshold, the count on an empty series is 0, and on a series of
365 daily values of which 10 exceed 25.0 (and the rest are at most 25.0)
it returns 10. -/
theorem aggregator_counts_strictly_above_threshold :
    (∀ (s : List FVal) (T : FVal),
      no_summer_days_model s T =
        (s.filter (fun v => !v.isNaN && fgt v T)).length) ∧
    (∀ T : FVal, no_summer_days_model [] T = 0) ∧
    no_summer_days_model
      (List.replicate 10 (FVal.fin 30) ++ List.replicate 355 (FVal.fin 20))
      (FVal.fin 25) = 10 := by
  refine ⟨?_, fun T => rfl, ?_⟩
  · intro s T
    unfold no_summer_days_model
    rw [List.filter_congr (fun v _ => fgt_eq_nonnan_fgt T v)]
  · unfold no_summer_days_model
    rw [List.filter_append, List.length_append,
      length_filter_replicate, length_filter_replicate]
    norm_num [fgt]

/-- C4: every sample is converted from Kelvin to Celsius (by subtracting
273.15) before the comparison against the constant threshold 25.0 °C, so
the summer-day count equals the number of source Kelvin values v with
v - 273.15 > 25.0. -/
theorem summer_days_kelvin_conversion :
    ∀ s : List ℚ,
      summerDaysFromKelvin (s.map FVal.fin) =
        (s.filter (fun q => decide (q - 273.15 > 25))).length := by
  intro s
  unfold summerDaysFromKelvin no_summer_days_model
  rw [List.map_map, List.filter_map, List.length_map]
  rfl

/-- C8 counterexample: NaN is a non-finite threshold, on which the spec's
aggregator fails with the invalid-threshold error while the source
aggregator succeeds and returns the count 0. -/
theorem aggregator_total_counterexample :
    FVal.isFinite FVal.nan = false ∧
    specAggregator [FVal.fin 30] FVal.nan = Except.error "invalid threshold" ∧
    no_summer_days_model [FVal.fin 30] FVal.nan = 0 :=
  ⟨rfl, rfl, rfl⟩

/-- C8 amended: the aggregator never fails: it returns a count for every
threshold, finite or not. The count on an empty series is 0 for every
threshold; a NaN or +inf threshold yields 0; a -inf threshold counts every
non-NaN sample other than -inf itself. -/
theorem aggregator_never_fails :
    ∀ (s : List FVal) (T : FVal),
      no_summer_days_model ([] : List FVal) T = 0 ∧
      no_summer_days_model s FVal.nan = 0 ∧
      no_summer_days_model s FVal.inf = 0 ∧
      no_summer_days_model s FVal.ninf =
        (s.filter (fun v => !v.isNaN && decide (v ≠ FVal.ninf))).length := by
  intro s T
  refine ⟨rfl, ?_, ?_, ?_⟩
  · unfold no_summer_days_model
    rw [List.filter_congr (fun v _ => fgt_nan_right v)]
    simp
  · unfold no_summer_days_model
    rw [List.filter_congr (fun v _ => fgt_inf_right v)]
    simp
  · unfold no_summer_days_model
    have : ∀ v ∈ s, fgt v FVal.ninf = (!v.isNaN && decide (v ≠ FVal.ninf)) := by
      intro v _
      cases v <;> rfl
    rw [List.filter_congr this]

/-! ### Temporal slice extractor

From the notebook cell
`time_start = str(year_box.value) + "-01-01T12:00:00.000000000"`,
`time_end = str(year_box.value) + "-12-31T12:00:00.000000000"`,
`tasmax_year_xr = tasmax_xr.loc[time_start:time_end, :, :]`:
a label slice on a monotonic time index keeps exactly the samples whose
timestamp lies between both bounds inclusive. -/

/-- Calendar timestamp: year, month, day, and second of day. -/
structure Timestamp where
  y : ℕ
  mo : ℕ
  d : ℕ
  sec : ℕ
deriving DecidableEq

/-- Chronological key of a timestamp; for calendar timestamps (month at
most 12, day at most 31, second of day below 86400) the numeric order of
keys is the chronological order. -/
def Timestamp.key (t : Timestamp) : ℕ :=
  ((t.y * 100 + t.mo) * 100 + t.d) * 100000 + t.sec

/-- The slice lower bound `"Y-01-01T12:00:00"` built by the notebook
(12:00:00 is second 43200 of the day). -/
def time_start (year : ℕ) : Timestamp := ⟨year, 1, 1, 43200⟩

/-- The slice upper bound `"Y-12-31T12:00:00"` built by the notebook. -/
def time_end (year : ℕ) : Timestamp := ⟨year, 12, 31, 43200⟩

/-- The year slice `tasmax_xr.loc[time_start:time_end]`: the samples whose
timestamp lies between the two noon bounds, inclusive. -/
def tasmax_year_xr (s : List (Timestamp × FVal)) (year : ℕ) :
    List (Timestamp × FVal) :=
  s.filter (fun p =>
    decide ((time_start year).key ≤ p.1.key) &&
    decide (p.1.key ≤ (time_end year).key))

/-- Follows the spec's words, for comparison with the source slice: the
claimed year range starts at `Y-01-01T00:00:00` and ends at
`Y-12-31T23:59:59` (second 86399 of the day). -/
def specInYearRange (year : ℕ) (t : Timestamp) : Bool :=
  decide ((⟨year, 1, 1, 0⟩ : Timestamp).key ≤ t.key) &&
  decide (t.key ≤ (⟨year, 12, 31, 86399⟩ : Timestamp).key)

/-- Gregorian leap-year test, for building the concrete daily series of the
spec scenario. -/
def isLeap (y : ℕ) : Bool :=
  (y % 4 == 0 && y % 100 != 0) || y % 400 == 0

/-- Number of days of a month. -/
def daysInMonth (y m : ℕ) : ℕ :=
  if m = 2 then (if isLeap y then 29 else 28)
  else if m = 4 ∨ m = 6 ∨ m = 9 ∨ m = 11 then 30
  else 31

/-- The calendar day after `t`, keeping the second of day. -/
def nextDay (t : Timestamp) : Timestamp :=
  if t.d < daysInMonth t.y t.mo then ⟨t.y, t.mo, t.d + 1, t.sec⟩
  else if t.mo < 12 then ⟨t.y, t.mo + 1, 1, t.sec⟩
  else ⟨t.y + 1, 1, 1, t.sec⟩

/-- A run of `n` consecutive daily timestamps starting at `t`. -/
def dailySeries (t : Timestamp) : ℕ → List Timestamp
  | 0 => []
  | n + 1 => t :: dailySeries (nextDay t) n

/-- C2 counterexample: for the series holding a single sample stamped
`2015-01-01T00:00:00` and year 2015, the sample lies in the claimed range
`[2015-01-01T00:00:00, 2015-12-31T23:59:59]`, yet the extractor returns
the empty result: the sample is missing, so completeness fails. -/
theorem slice_missing_midnight_sample_counterexample :
    specInYearRange 2015 ⟨2015, 1, 1, 0⟩ = true ∧
    tasmax_year_xr [(⟨2015, 1, 1, 0⟩, FVal.fin 20)] 2015 = [] := by
  decide

set_option maxRecDepth 100000 in
/-- C2 amended: the extractor returns exactly the samples with timestamp in
the inclusive noon-to-noon range `[Y-01-01T12:00:00, Y-12-31T12:00:00]`
(soundness and completeness with respect to those bounds), and for a series
of noon-stamped daily samples spanning 2014-12-01 to 2016-01-31 with
Y = 2015 the result is exactly the noon-stamped subrange 2015-01-01 through
2015-12-31 inclusive (365 samples). -/
theorem slice_noon_bounds_exact :
    (∀ (s : List (Timestamp × FVal)) (year : ℕ) (p : Timestamp × FVal),
      p ∈ tasmax_year_xr s year ↔
        p ∈ s ∧ (time_start year).key ≤ p.1.key ∧
          p.1.key ≤ (time_end year).key) ∧
    tasmax_year_xr
        ((dailySeries ⟨2014, 12, 1, 43200⟩ 427).map (fun t => (t, FVal.fin 20)))
        2015 =
      (dailySeries ⟨2015, 1, 1, 43200⟩ 365).map (fun t => (t, FVal.fin 20)) := by
  constructor
  · intro s year p
    simp [tasmax_year_xr, List.mem_filter]
  · decide

/-- C7: if no sample of the series lies in the claimed year range
`[Y-01-01T00:00:00, Y-12-31T23:59:59]`, the extractor returns the empty
list (not an error) and the subsequent threshold count over that empty
result is 0, for every threshold. -/
theorem empty_slice_count_zero :
    ∀ (s : List (Timestamp × FVal)) (year : ℕ) (T : FVal),
      (∀ p ∈ s, specInYearRange year p.1 = false) →
      tasmax_year_xr s year = [] ∧
      no_summer_days_model ((tasmax_year_xr s year).map Prod.snd) T = 0 := by
  intro s year T h
  have hnil : tasmax_year_xr s year = [] := by
    unfold tasmax_year_xr
    rw [List.filter_eq_nil_iff]
    intro p hp
    have hout := h p hp
    simp only [specInYearRange, Timestamp.key, Bool.and_eq_false_iff,
      decide_eq_false_iff_not, not_le] at hout
    simp only [time_start, time_end, Timestamp.key, Bool.and_eq_true,
      decide_eq_true_eq, not_and, not_le]
    intro hlo
    rcases hout with hout | hout <;> omega
  refine ⟨hnil, ?_⟩
  rw [hnil]
  rfl

/-- Witness for C7: a series whose only sample is stamped 2014-06-01 has no
sample in 2015, so the 2015 slice is empty and the count is 0. -/
theorem empty_slice_count_zero_witness :
    tasmax_year_xr [(⟨2014, 6, 1, 43200⟩, FVal.fin 30)] 2015 = [] ∧
    no_summer_days_model
      ((tasmax_year_xr [(⟨2014, 6, 1, 43200⟩, FVal.fin 30)] 2015).map Prod.snd)
      (FVal.fin 25) = 0 :=
  empty_slice_count_zero [(⟨2014, 6, 1, 43200⟩, FVal.fin 30)] 2015 (FVal.fin 25)
    (by decide)

/-! ### Historical/scenario concatenation

From the multimodel-comparison notebook:
`tas_array = np.concatenate((np.array([ds_hist[i].values[-1]]), ds_ssp245[i].values))`,
`time_array = np.concatenate((np.array([ds_hist[i]['time'].values[-1]]), ds_ssp245[i]['time'].values))`,
`timeseries = xr.DataArray(data=tas_array, coords=[time_array], dims='time')`.
A series is embedded as a list of (value, timestamp) pairs; prepending the
last value and the last timestamp of the historical series is prepending
its last pair. Indexing `values[-1]` raises on an empty historical series,
rendered as `none`. -/

/-- One entry of `ds_merged_ssp245`: the scenario series with the last
(value, timestamp) pair of the historical series prepended. -/
def mergedTimeseries (hist scen : List (FVal × ℕ)) : Option (List (FVal × ℕ)) :=
  match hist.getLast? with
  | none => none
  | some lastPair => some (lastPair :: scen)

/-- C9: whenever the concatenation step produces a merged series, it has
exactly one more sample than the scenario series, its first pair is the
last pair of the historical series, and its remaining pairs are the
scenario series in order. -/
theorem merged_series_structure :
    ∀ (hist scen merged : List (FVal × ℕ)),
      mergedTimeseries hist scen = some merged →
      merged.length = scen.length + 1 ∧
      merged.head? = hist.getLast? ∧
      merged.tail = scen := by
  intro hist scen merged h
  unfold mergedTimeseries at h
  rcases hl : hist.getLast? with _ | lastPair <;> rw [hl] at h
  · simp at h
  · obtain rfl : lastPair :: scen = merged := by simpa using h
    exact ⟨by simp, by simp, rfl⟩

/-- Witness for C9 at a one-sample historical and one-sample scenario
series. -/
theorem merged_series_structure_witness :
    ([(FVal.fin 1, 5), (FVal.fin 2, 7)] : List (FVal × ℕ)).length =
      ([(FVal.fin 2, 7)] : List (FVal × ℕ)).length + 1 ∧
    ([(FVal.fin 1, 5), (FVal.fin 2, 7)] : List (FVal × ℕ)).head? =
      ([(FVal.fin 1, 5)] : List (FVal × ℕ)).getLast? ∧
    ([(FVal.fin 1, 5), (FVal.fin 2, 7)] : List (FVal × ℕ)).tail =
      [(FVal.fin 2, 7)] :=
  merged_series_structure [(FVal.fin 1, 5)] [(FVal.fin 2, 7)]
    [(FVal.fin 1, 5), (FVal.fin 2, 7)] rfl

/-! ### Model list of the multimodel comparison

From the notebook: `files_hist = os.listdir(datdir_hist)`,
`files_hist.sort()`, `r1_files_hist = [model for model in files_hist if
'_r1i1' in model]`, `models = [filename.split('_')[2] for filename in
r1_files_hist]`, `unique_models = list(dict.fromkeys(models))`, the
version dictionaries keyed by `unique_models`, and finally the loop
appending to `model_list` every key of `modelversions_latest_hist` that is
also a key of `modelversions_latest_ssp245`. -/

/-- Substring test on character lists, embedding Python's `subs in model`. -/
def containsSub : List Char → List Char → Bool
  | [], pat => pat.isEmpty
  | c :: t, pat => pat.isPrefixOf (c :: t) || containsSub t pat

/-- Substring test on strings. -/
def hasSub (s pat : String) : Bool := containsSub s.toList pat.toList

/-- The sorted directory listing (`files.sort()` on filename strings). -/
def sortedListing (files : List String) : List String :=
  List.insertionSort (fun a b => a ≤ b) files

/-- The r1i1-filtered listing: the sorted filenames that contain the
substring `_r1i1`. -/
def r1Files (files : List String) : List String :=
  (sortedListing files).filter (fun f => hasSub f "_r1i1")

/-- Model name of a filename: its third underscore-separated field
(`filename.split('_')[2]`). -/
def modelNameOf (f : String) : String := (f.splitOn "_").getD 2 ""

/-- Deduplication keeping the first occurrence of each element, embedding
`list(dict.fromkeys(models))` (Python dicts preserve insertion order). -/
def dedupFirst {α : Type} [DecidableEq α] : List α → List α
  | [] => []
  | a :: l => a :: dedupFirst (l.filter (fun b => decide (b ≠ a)))
termination_by l => l.length
decreasing_by
  simp only [List.length_cons]
  exact Nat.lt_succ_of_le (List.length_filter_le _ _)

/-- The `unique_models` list of one experiment, which is also the key
sequence of its `modelversions_latest` dictionary. -/
def uniqueModels (files : List String) : List String :=
  dedupFirst ((r1Files files).map modelNameOf)

/-- The `model_list` loop: every key of the historical version dictionary
that is also a key of the ssp245 version dictionary, in historical key
order. -/
def model_list (files_hist files_ssp245 : List String) : List String :=
  (uniqueModels files_hist).filter
    (fun key => decide (key ∈ uniqueModels files_ssp245))

theorem mem_dedupFirst {α : Type} [DecidableEq α] (l : List α) (x : α) :
    x ∈ dedupFirst l ↔ x ∈ l := by
  induction l using dedupFirst.induct with
  | case1 => simp [dedupFirst]
  | case2 a l ih =>
    rw [dedupFirst, List.mem_cons, List.mem_cons, ih, List.mem_filter]
    by_cases hx : x = a <;> simp [hx]

theorem nodup_dedupFirst {α : Type} [DecidableEq α] (l : List α) :
    (dedupFirst l).Nodup := by
  induction l using dedupFirst.induct with
  | case1 => simp [dedupFirst]
  | case2 a l ih =>
    rw [dedupFirst, List.nodup_cons]
    refine ⟨?_, ih⟩
    intro hmem
    rw [mem_dedupFirst, List.mem_filter] at hmem
    simpa using hmem.2

theorem dedupFirst_sublist {α : Type} [DecidableEq α] (l : List α) :
    (dedupFirst l).Sublist l := by
  induction l using dedupFirst.induct with
  | case1 => simp [dedupFirst]
  | case2 a l ih =>
    rw [dedupFirst]
    exact (ih.trans (List.filter_sublist l)).cons₂ a

theorem mem_map_r1Files (files : List String) (x : String) :
    x ∈ (r1Files files).map modelNameOf ↔
      x ∈ (files.filter (fun f => hasSub f "_r1i1")).map modelNameOf := by
  have hperm := List.perm_insertionSort (fun a b : String => a ≤ b) files
  exact ((hperm.filter _).map _).mem_iff

/-- C10: the model list contains exactly the model names occurring in both
the historical and the ssp245 r1i1-filtered listings; each name appears
once; and the list is a subsequence of the deduplicated historical name
sequence, hence in the order of the historical listing. -/
theorem model_list_intersection :
    ∀ files_hist files_ssp245 : List String,
      (model_list files_hist files_ssp245).Nodup ∧
      (∀ x, x ∈ model_list files_hist files_ssp245 ↔
        (x ∈ (files_hist.filter (fun f => hasSub f "_r1i1")).map modelNameOf ∧
         x ∈ (files_ssp245.filter (fun f => hasSub f "_r1i1")).map modelNameOf)) ∧
      (model_list files_hist files_ssp245).Sublist (uniqueModels files_hist) := by
  intro fh fs
  refine ⟨(nodup_dedupFirst _).filter _, ?_, List.filter_sublist _⟩
  intro x
  unfold model_list uniqueModels
  rw [List.mem_filter]
  simp only [decide_eq_true_eq]
  rw [mem_dedupFirst, mem_dedupFirst, mem_map_r1Files, mem_map_r1Files]

end Climate
